import Mathlib

/-!
Shallow embedding of the unix scheduling core of the thread-priority crate
(`src/unix.rs`), together with theorems checking the natural-language
specification against it.

Machine integers are embedded as `Nat`/`Int` with the numeric casts of the
source made explicit (`u32 as c_int`, `i32 as u8`, `pthread_t as pid_t`).
Fallible Rust functions returning `Result` are embedded as `Except`.
The two OS-call entry points are embedded as functions that return either the
domain error raised before any OS interaction, or a description of the single
system call the code would issue (`SysCall`); the OS's own return code is
environment input outside the embedding.
-/

/-- Error type of the crate. Declared in the crate root (outside `src/unix.rs`);
its three constructors are reconstructed from their uses in `src/unix.rs`
(`Error::Priority(&str)`, `Error::Ffi(&str)`, `Error::OS(c_int)`) and from the
spec's error taxonomy (range/validation, unrecognized-value, OS error). -/
inductive Error where
  | Priority (msg : String)
  | Ffi (msg : String)
  | OS (code : Int)
deriving DecidableEq, Repr

/-- Real-time schedule policies, from `RealtimeThreadSchedulePolicy` in
`src/unix.rs` (the `Deadline` variant is the linux-only one). -/
inductive RealtimeThreadSchedulePolicy where
  | Fifo
  | RoundRobin
  | Deadline
deriving DecidableEq, Repr

/-- Normal (time-sharing) schedule policies, from `NormalThreadSchedulePolicy`
in `src/unix.rs`. -/
inductive NormalThreadSchedulePolicy where
  | Idle
  | Batch
  | Other
  | Normal
deriving DecidableEq, Repr

/-- Thread schedule policy, from `ThreadSchedulePolicy` in `src/unix.rs`. -/
inductive ThreadSchedulePolicy where
  | Normal (p : NormalThreadSchedulePolicy)
  | Realtime (p : RealtimeThreadSchedulePolicy)
deriving DecidableEq, Repr

/-- Deadline-scheduling flags, from `DeadlineFlags` in `src/unix.rs`
(an enum with explicit discriminants 0x01, 0x02, 0x04). -/
inductive DeadlineFlags where
  | ResetOnFork
  | Reclaim
  | DeadlineOverrun
deriving DecidableEq, Repr

/-- The numeric discriminant of a `DeadlineFlags` value, as produced by the
source's `flags as i32` cast. -/
def DeadlineFlags.toInt : DeadlineFlags → Int
  | .ResetOnFork => 1
  | .Reclaim => 2
  | .DeadlineOverrun => 4

/-- Newtype for the crossplatform priority value. Declared in the crate root;
its payload is a `u8` (embedded as `Nat`), per the pattern
`ThreadPriority::Crossplatform(ThreadPriorityValue(p))` in `src/unix.rs` and
the spec's `[0, 100]` crossplatform range. -/
structure ThreadPriorityValue where
  val : Nat
deriving DecidableEq, Repr

/-- Newtype for the OS-specific priority value. Declared in the crate root;
its payload is a `u32` (embedded as `Nat`): in `ThreadPriority::to_posix` the
`Os` arm returns the payload in the same `Result` as the `u32` values of the
other arms, so it must itself be a `u32`. -/
structure ThreadPriorityOsValue where
  val : Nat
deriving DecidableEq, Repr

/-- Portable thread priority. Declared in the crate root; the variants are
reconstructed from their uses in `src/unix.rs` and the spec's data model:
`Min`, `Max`, `Crossplatform(u8 value)`, `Os(u32 value)`, and the linux-only
`Deadline(runtime, deadline, period, flags)` with three `u64` quantities and
an optional flag. -/
inductive ThreadPriority where
  | Min
  | Crossplatform (v : ThreadPriorityValue)
  | Os (v : ThreadPriorityOsValue)
  | Max
  | Deadline (runtime deadline period : Nat) (flags : Option DeadlineFlags)
deriving DecidableEq, Repr

/-- True exactly on the `Deadline` variant of `ThreadPriority`. -/
def ThreadPriority.isDeadlineVariant : ThreadPriority → Bool
  | .Deadline _ _ _ _ => true
  | _ => false

/-- Proxy structure for the POSIX parameter block, from `ScheduleParams` in
`src/unix.rs`: a single `c_int` priority field (embedded as `Int`). -/
structure ScheduleParams where
  sched_priority : Int
deriving DecidableEq, Repr

/-- Copy of the Linux kernel's `sched_attr` record, from `SchedAttr` in
`src/unix.rs` (field names and order preserved; `u32`/`u64` fields as `Nat`,
the `i32` nice field as `Int`). -/
structure SchedAttr where
  size : Nat
  sched_policy : Nat
  sched_flags : Nat
  sched_nice : Int
  sched_priority : Nat
  sched_runtime : Nat
  sched_deadline : Nat
  sched_period : Nat
  sched_util_min : Nat
  sched_util_max : Nat
deriving DecidableEq, Repr

/-- `Default::default()` for `SchedAttr` (all fields zero, from the derived
`Default` in `src/unix.rs`). -/
def SchedAttr.default : SchedAttr :=
  ⟨0, 0, 0, 0, 0, 0, 0, 0, 0, 0⟩

/-- `std::mem::size_of::<SchedAttr>()`: the `repr(C)` layout of `SchedAttr`
places its fields of sizes 4,4,8,4,4,8,8,8,4,4 at byte offsets
0,4,8,16,20,24,32,40,48,52, giving total size 56 (alignment 8). -/
def schedAttrSizeBytes : Nat := 56

/-- Rust's `u32 as libc::c_int` cast (`c_int` is `i32`): values below `2^31`
are unchanged, larger ones wrap to negative. Used for the final conversion in
`ThreadPriority::to_posix`. -/
def u32_as_c_int (p : Nat) : Int :=
  if p < 2 ^ 31 then (p : Int) else (p : Int) - 2 ^ 32

/-- Rust's `i32 as u8` cast: truncation to the low 8 bits, i.e. the value
modulo 256 (negative inputs wrap). Used in `ThreadPriority::from_posix`. -/
def i32_as_u8 (p : Int) : Nat := (p % 256).toNat

/-- Decidable equality for `Except`, so the embedded `Result`-returning
functions can be evaluated at concrete inputs. -/
instance instDecidableEqExcept {ε α : Type} [DecidableEq ε] [DecidableEq α] :
    DecidableEq (Except ε α)
  | .error a, .error b =>
    if h : a = b then .isTrue (by rw [h])
    else .isFalse (by intro hc; cases hc; exact h rfl)
  | .error _, .ok _ => .isFalse (by intro hc; cases hc)
  | .ok _, .error _ => .isFalse (by intro hc; cases hc)
  | .ok a, .ok b =>
    if h : a = b then .isTrue (by rw [h])
    else .isFalse (by intro hc; cases hc; exact h rfl)

/-- Rust's `pthread_t as libc::pid_t` cast (`u64` to `i32`): keep the low
32 bits, reinterpreted as a signed 32-bit value. Used on the deadline branch
of `set_thread_schedule_policy`. -/
def u64_as_pid (n : Nat) : Int :=
  if n % 2 ^ 32 < 2 ^ 31 then ((n % 2 ^ 32 : Nat) : Int)
  else ((n % 2 ^ 32 : Nat) : Int) - 2 ^ 32

/-- `RealtimeThreadSchedulePolicy::to_posix` from `src/unix.rs`. -/
def RealtimeThreadSchedulePolicy.to_posix : RealtimeThreadSchedulePolicy → Int
  | .Fifo => 1
  | .RoundRobin => 2
  | .Deadline => 6

/-- `NormalThreadSchedulePolicy::to_posix` from `src/unix.rs`. -/
def NormalThreadSchedulePolicy.to_posix : NormalThreadSchedulePolicy → Int
  | .Idle => 5
  | .Batch => 3
  | .Other => 0
  | .Normal => 0

/-- `ThreadSchedulePolicy::to_posix` from `src/unix.rs`: delegation to the
variant's own encoding. -/
def ThreadSchedulePolicy.to_posix : ThreadSchedulePolicy → Int
  | .Normal p => p.to_posix
  | .Realtime p => p.to_posix

/-- `ThreadSchedulePolicy::from_posix` from `src/unix.rs`: the inverse table,
any unlisted numeric value is an FFI error. -/
def ThreadSchedulePolicy.from_posix (policy : Int) :
    Except Error ThreadSchedulePolicy :=
  if policy = 0 then .ok (.Normal .Normal)
  else if policy = 3 then .ok (.Normal .Batch)
  else if policy = 5 then .ok (.Normal .Idle)
  else if policy = 1 then .ok (.Realtime .Fifo)
  else if policy = 2 then .ok (.Realtime .RoundRobin)
  else if policy = 6 then .ok (.Realtime .Deadline)
  else .error (.Ffi "Can't parse schedule policy from posix")

/-- The `let ret` computation inside `ThreadPriority::to_posix` in
`src/unix.rs`: the resolution working in `u32` (here `Nat`), before the final
`p as libc::c_int` cast. -/
def ThreadPriority.to_posix_ret (self : ThreadPriority)
    (policy : ThreadSchedulePolicy) : Except Error Nat :=
  match self with
    | .Min =>
      match policy with
      | .Realtime .Deadline =>
        .error (.Priority "Deadline scheduling must use deadline priority.")
      | .Realtime _ => .ok 1
      | _ => .ok 0
    | .Crossplatform ⟨p⟩ =>
      match policy with
      | .Realtime .Deadline =>
        .error (.Priority "Deadline scheduling must use deadline priority.")
      | .Realtime _ =>
        if p = 0 ∨ p > 99 then
          .error (.Priority "The value is out of range [0; 99]")
        else .ok p
      | .Normal _ =>
        if p ≠ 0 then
          .error (.Priority "The value can be only 0 for normal scheduling policy")
        else .ok p
    | .Os ⟨p⟩ =>
      match policy with
      | .Realtime .Deadline =>
        .error (.Priority "Deadline scheduling must use deadline priority.")
      | .Realtime _ =>
        if p = 0 ∨ p > 99 then
          .error (.Priority "The value is out of range [0; 99]")
        else .ok p
      | .Normal _ =>
        if p ≠ 0 then
          .error (.Priority "The value can be only 0 for normal scheduling policy")
        else .ok p
    | .Max =>
      match policy with
      | .Realtime .Deadline =>
        .error (.Priority "Deadline scheduling must use deadline priority.")
      | .Realtime _ => .ok 99
      | _ => .ok 0
    | .Deadline _ _ _ _ =>
      .error (.Priority "Deadline is non-POSIX and cannot be converted.")

/-- `ThreadPriority::to_posix` from `src/unix.rs`: resolves a priority against
a policy into the OS-native `c_int` priority; the `ret` resolution followed by
the source's `ret.map(|p| p as libc::c_int)`. -/
def ThreadPriority.to_posix (self : ThreadPriority)
    (policy : ThreadSchedulePolicy) : Except Error Int :=
  (self.to_posix_ret policy).map u32_as_c_int

/-- `ThreadPriority::from_posix` from `src/unix.rs`: always a `Crossplatform`
value built from the parameter block's priority cast `as u8`. -/
def ThreadPriority.from_posix (params : ScheduleParams) : ThreadPriority :=
  .Crossplatform ⟨i32_as_u8 params.sched_priority⟩

/-- The single system call a write-path invocation would issue, with its
arguments: either the linux `sched_setattr` syscall (deadline branch) or the
generic `pthread_setschedparam` call. -/
inductive SysCall where
  | sched_setattr (tid : Int) (attr : SchedAttr) (flags : Int)
  | pthread_setschedparam (thread : Nat) (policy : Int) (param : ScheduleParams)
deriving DecidableEq, Repr

/-- `set_thread_schedule_policy` from `src/unix.rs`, embedded up to the OS
boundary: returns the domain error raised before any system call, or the one
system call the code would issue. On the deadline branch the priority argument
must be a `Deadline` variant; the attribute record is built with
`..Default::default()` for all fields not listed, and the optional flag's
discriminant (or 0) is passed as the syscall's third argument. -/
def set_thread_schedule_policy (native : Nat) (policy : ThreadSchedulePolicy)
    (params : ScheduleParams) (priority : ThreadPriority) :
    Except Error SysCall :=
  match policy with
  | .Realtime .Deadline =>
    match priority with
    | .Deadline runtime deadline period flags =>
      let tid := u64_as_pid native
      let sched_attr : SchedAttr :=
        { SchedAttr.default with
            size := schedAttrSizeBytes
            sched_policy := (ThreadSchedulePolicy.to_posix
              (.Realtime .Deadline)).toNat
            sched_runtime := runtime
            sched_deadline := deadline
            sched_period := period }
      .ok (.sched_setattr tid sched_attr
        (match flags with
          | none => 0
          | some f => f.toInt))
    | _ => .error (.Priority "Deadline policy given without deadline priority.")
  | _ => .ok (.pthread_setschedparam native policy.to_posix params)

/-- The priority-resolution step of `set_thread_priority_and_policy` in
`src/unix.rs`: for the deadline policy the parameter-block priority is the
constant 0 (the real parameters ride in the attribute record); for every
other policy it is `priority.to_posix(policy)?`. -/
def resolve_sched_priority (priority : ThreadPriority)
    (policy : ThreadSchedulePolicy) : Except Error Int :=
  match policy with
  | .Realtime .Deadline => .ok 0
  | _ => priority.to_posix policy

/-- `set_thread_priority_and_policy` from `src/unix.rs`: resolve the priority
(with the deadline short-circuit), pack it into `ScheduleParams`, and dispatch
to `set_thread_schedule_policy`; a resolution error propagates immediately. -/
def set_thread_priority_and_policy (native : Nat) (priority : ThreadPriority)
    (policy : ThreadSchedulePolicy) : Except Error SysCall :=
  match resolve_sched_priority priority policy with
  | .error e => .error e
  | .ok sp => set_thread_schedule_policy native policy ⟨sp⟩ priority

/-- `TryFrom<u8> for ThreadPriority` from `src/unix.rs`: values `0..=100`
become `Crossplatform`, anything larger is a range error. The `u8` input is
embedded as a `Nat` (callers range over `0..=255`). -/
def threadPriorityTryFromU8 (value : Nat) : Except String ThreadPriority :=
  if value ≤ 100 then .ok (.Crossplatform ⟨value⟩)
  else .error "The thread priority value must be in range of [0; 100]."

/-! ## Helper lemmas -/

/-- For a non-deadline real-time policy, the resolution of a `Crossplatform`
or `Os` value coincides and is the range-checked identity on `[1, 99]`. -/
theorem to_posix_value_realtime (p : Nat) (rp : RealtimeThreadSchedulePolicy)
    (h : rp ≠ .Deadline) :
    ThreadPriority.to_posix (.Crossplatform ⟨p⟩) (.Realtime rp)
      = ThreadPriority.to_posix (.Os ⟨p⟩) (.Realtime rp)
    ∧ ThreadPriority.to_posix (.Os ⟨p⟩) (.Realtime rp)
      = (if 1 ≤ p ∧ p ≤ 99 then .ok (p : Int)
         else .error (.Priority "The value is out of range [0; 99]")) := by
  have hret : ThreadPriority.to_posix_ret (.Os ⟨p⟩) (.Realtime rp)
      = (if p = 0 ∨ p > 99 then
          .error (.Priority "The value is out of range [0; 99]")
         else .ok p) := by
    cases rp with
    | Deadline => exact absurd rfl h
    | Fifo => rfl
    | RoundRobin => rfl
  have hret2 : ThreadPriority.to_posix_ret (.Crossplatform ⟨p⟩) (.Realtime rp)
      = ThreadPriority.to_posix_ret (.Os ⟨p⟩) (.Realtime rp) := by
    cases rp with
    | Deadline => exact absurd rfl h
    | Fifo => rfl
    | RoundRobin => rfl
  constructor
  · simp only [ThreadPriority.to_posix, hret2]
  · simp only [ThreadPriority.to_posix, hret]
    by_cases hp : 1 ≤ p ∧ p ≤ 99
    · rw [if_neg (by omega), if_pos hp]
      show Except.ok (u32_as_c_int p) = Except.ok ((p : Int))
      simp only [u32_as_c_int]
      rw [if_pos (by omega)]
    · rw [if_pos (by omega), if_neg hp]
      rfl

/-- For a normal policy, the resolution of a `Crossplatform` or `Os` value
coincides and accepts exactly the value 0. -/
theorem to_posix_value_normal (p : Nat) (np : NormalThreadSchedulePolicy) :
    ThreadPriority.to_posix (.Crossplatform ⟨p⟩) (.Normal np)
      = ThreadPriority.to_posix (.Os ⟨p⟩) (.Normal np)
    ∧ ThreadPriority.to_posix (.Os ⟨p⟩) (.Normal np)
      = (if p = 0 then .ok 0
         else .error
           (.Priority "The value can be only 0 for normal scheduling policy")) := by
  have hret : ThreadPriority.to_posix_ret (.Os ⟨p⟩) (.Normal np)
      = (if p ≠ 0 then
          .error (.Priority "The value can be only 0 for normal scheduling policy")
         else .ok p) := rfl
  have hret2 : ThreadPriority.to_posix_ret (.Crossplatform ⟨p⟩) (.Normal np)
      = ThreadPriority.to_posix_ret (.Os ⟨p⟩) (.Normal np) := rfl
  constructor
  · simp only [ThreadPriority.to_posix, hret2]
  · simp only [ThreadPriority.to_posix, hret]
    by_cases hp : p = 0
    · subst hp
      rw [if_neg (by omega), if_pos rfl]
      rfl
    · rw [if_pos hp, if_neg hp]
      rfl

/-- Every successful `ret` resolution inside `to_posix` is at most 99. -/
theorem to_posix_ret_ok_le (prio : ThreadPriority) (pol : ThreadSchedulePolicy)
    (n : Nat) (h : prio.to_posix_ret pol = .ok n) : n ≤ 99 := by
  cases prio with
  | Min =>
    cases pol with
    | Normal np => cases h; omega
    | Realtime rp => cases rp <;> cases h <;> omega
  | Max =>
    cases pol with
    | Normal np => cases h; omega
    | Realtime rp => cases rp <;> cases h <;> omega
  | Crossplatform v =>
    obtain ⟨p⟩ := v
    cases pol with
    | Normal np =>
      have hret : ThreadPriority.to_posix_ret (.Crossplatform ⟨p⟩) (.Normal np)
          = (if p ≠ 0 then
              .error (.Priority "The value can be only 0 for normal scheduling policy")
             else .ok p) := rfl
      rw [hret] at h
      split at h
      · cases h
      · cases h; omega
    | Realtime rp =>
      cases rp with
      | Deadline => cases h
      | Fifo =>
        have hret : ThreadPriority.to_posix_ret (.Crossplatform ⟨p⟩)
              (.Realtime .Fifo)
            = (if p = 0 ∨ p > 99 then
                .error (.Priority "The value is out of range [0; 99]")
               else .ok p) := rfl
        rw [hret] at h
        split at h
        · cases h
        · cases h; omega
      | RoundRobin =>
        have hret : ThreadPriority.to_posix_ret (.Crossplatform ⟨p⟩)
              (.Realtime .RoundRobin)
            = (if p = 0 ∨ p > 99 then
                .error (.Priority "The value is out of range [0; 99]")
               else .ok p) := rfl
        rw [hret] at h
        split at h
        · cases h
        · cases h; omega
  | Os v =>
    obtain ⟨p⟩ := v
    cases pol with
    | Normal np =>
      have hret : ThreadPriority.to_posix_ret (.Os ⟨p⟩) (.Normal np)
          = (if p ≠ 0 then
              .error (.Priority "The value can be only 0 for normal scheduling policy")
             else .ok p) := rfl
      rw [hret] at h
      split at h
      · cases h
      · cases h; omega
    | Realtime rp =>
      cases rp with
      | Deadline => cases h
      | Fifo =>
        have hret : ThreadPriority.to_posix_ret (.Os ⟨p⟩) (.Realtime .Fifo)
            = (if p = 0 ∨ p > 99 then
                .error (.Priority "The value is out of range [0; 99]")
               else .ok p) := rfl
        rw [hret] at h
        split at h
        · cases h
        · cases h; omega
      | RoundRobin =>
        have hret : ThreadPriority.to_posix_ret (.Os ⟨p⟩) (.Realtime .RoundRobin)
            = (if p = 0 ∨ p > 99 then
                .error (.Priority "The value is out of range [0; 99]")
               else .ok p) := rfl
        rw [hret] at h
        split at h
        · cases h
        · cases h; omega
  | Deadline r d pd f => cases h

/-- The resolution step of `set_thread_priority_and_policy` agrees with
`to_posix` away from the deadline policy. -/
theorem resolve_eq_to_posix (prio : ThreadPriority) (pol : ThreadSchedulePolicy)
    (h : pol ≠ .Realtime .Deadline) :
    resolve_sched_priority prio pol = prio.to_posix pol := by
  cases pol with
  | Normal np => rfl
  | Realtime rp =>
    cases rp with
    | Deadline => exact absurd rfl h
    | Fifo => rfl
    | RoundRobin => rfl

/-- A failing resolution propagates as-is out of
`set_thread_priority_and_policy`. -/
theorem set_thread_priority_and_policy_error (native : Nat)
    (prio : ThreadPriority) (pol : ThreadSchedulePolicy) (e : Error)
    (h : resolve_sched_priority prio pol = .error e) :
    set_thread_priority_and_policy native prio pol = .error e := by
  simp only [set_thread_priority_and_policy, h]

/-! ## Claim theorems -/

/-- C1 counterexample: the claim asserts the round-trip reproduces every
variant exactly, but `Normal(Other)` encodes to 0 and 0 decodes to
`Normal(Normal)`, not `Normal(Other)`. -/
theorem C1_policy_roundtrip_counterexample :
    ThreadSchedulePolicy.from_posix
        (ThreadSchedulePolicy.to_posix (.Normal .Other))
      = .ok (.Normal .Normal)
    ∧ ThreadSchedulePolicy.from_posix
        (ThreadSchedulePolicy.to_posix (.Normal .Other))
      ≠ .ok (.Normal .Other) := by
  exact ⟨rfl, by decide⟩

/-- C1 (amended): decoding the numeric encoding of a policy variant returns
exactly that variant for every variant except `Normal(Other)`, whose encoding
0 decodes to the synonymous `Normal(Normal)`; and every numeric value outside
{0, 1, 2, 3, 5, 6} decodes to the unrecognized-policy (Ffi) error. -/
theorem C1_policy_roundtrip_amended :
    (∀ pol : ThreadSchedulePolicy, pol ≠ .Normal .Other →
      ThreadSchedulePolicy.from_posix pol.to_posix = .ok pol)
    ∧ ThreadSchedulePolicy.from_posix
        (ThreadSchedulePolicy.to_posix (.Normal .Other)) = .ok (.Normal .Normal)
    ∧ (∀ v : Int,
      v ≠ 0 ∧ v ≠ 1 ∧ v ≠ 2 ∧ v ≠ 3 ∧ v ≠ 5 ∧ v ≠ 6 →
      ThreadSchedulePolicy.from_posix v
        = .error (.Ffi "Can't parse schedule policy from posix")) := by
  refine ⟨?_, rfl, ?_⟩
  · intro pol h
    cases pol with
    | Normal np =>
      cases np with
      | Idle => rfl
      | Batch => rfl
      | Other => exact absurd rfl h
      | Normal => rfl
    | Realtime rp => cases rp <;> rfl
  · intro v hv
    obtain ⟨h0, h1, h2, h3, h5, h6⟩ := hv
    simp [ThreadSchedulePolicy.from_posix, h0, h1, h2, h3, h5, h6]

/-- C1 witness: a concrete exact round-trip (`Normal(Idle)`) and a concrete
unrecognized numeric value (4). -/
theorem C1_policy_roundtrip_amended_witness :
    ThreadSchedulePolicy.from_posix
        (ThreadSchedulePolicy.to_posix (.Normal .Idle)) = .ok (.Normal .Idle)
    ∧ ThreadSchedulePolicy.from_posix 4
      = .error (.Ffi "Can't parse schedule policy from posix") :=
  ⟨C1_policy_roundtrip_amended.1 (.Normal .Idle) (by decide),
   C1_policy_roundtrip_amended.2.2 4 (by decide)⟩

/-- C2 counterexample: the claim asserts `ThreadPriority::to_posix` on a
`Deadline(...)` priority against the deadline policy returns `Ok(0)`; the
code returns a priority error there. -/
theorem C2_deadline_to_posix_counterexample :
    ThreadPriority.to_posix (.Deadline 1000000 10000000 100000000 none)
        (.Realtime .Deadline)
      = .error (.Priority "Deadline is non-POSIX and cannot be converted.")
    ∧ ThreadPriority.to_posix (.Deadline 1000000 10000000 100000000 none)
        (.Realtime .Deadline)
      ≠ .ok 0 := by
  exact ⟨rfl, by decide⟩

/-- C2 (amended): `ThreadPriority::to_posix` on a `Deadline(...)` priority
returns an error for every policy, the deadline policy included; the sentinel
0 is instead produced by the resolution step of
`set_thread_priority_and_policy`, which for the deadline policy forces the
parameter-block priority to 0 without consulting `to_posix`. -/
theorem C2_deadline_sentinel_amended (r d p : Nat) (f : Option DeadlineFlags)
    (pol : ThreadSchedulePolicy) :
    ThreadPriority.to_posix (.Deadline r d p f) pol
      = .error (.Priority "Deadline is non-POSIX and cannot be converted.")
    ∧ resolve_sched_priority (.Deadline r d p f) (.Realtime .Deadline)
      = .ok 0 := by
  constructor
  · cases pol with
    | Normal np => rfl
    | Realtime rp => cases rp <;> rfl
  · rfl

/-- C7: `ThreadSchedulePolicy::to_posix` is total (it is a Lean function on
the whole policy type) and realizes exactly the fixed numeric table. -/
theorem C7_policy_encoding_table :
    ThreadSchedulePolicy.to_posix (.Normal .Other) = 0
    ∧ ThreadSchedulePolicy.to_posix (.Normal .Normal) = 0
    ∧ ThreadSchedulePolicy.to_posix (.Realtime .Fifo) = 1
    ∧ ThreadSchedulePolicy.to_posix (.Realtime .RoundRobin) = 2
    ∧ ThreadSchedulePolicy.to_posix (.Normal .Batch) = 3
    ∧ ThreadSchedulePolicy.to_posix (.Normal .Idle) = 5
    ∧ ThreadSchedulePolicy.to_posix (.Realtime .Deadline) = 6 := by
  decide

/-- C8: `ThreadPriority::from_posix` always yields a `Crossplatform` variant
whose value is the parameter block's priority truncated to an unsigned 8-bit
quantity: it is below 256 and congruent to the OS value modulo 256 (so
negative or large OS values wrap rather than error). -/
theorem C8_from_posix_always_crossplatform (params : ScheduleParams) :
    ∃ v : ThreadPriorityValue,
      ThreadPriority.from_posix params = .Crossplatform v
      ∧ v.val < 256
      ∧ (v.val : Int) % 256 = params.sched_priority % 256 := by
  refine ⟨⟨i32_as_u8 params.sched_priority⟩, rfl, ?_, ?_⟩
  · simp only [i32_as_u8]
    omega
  · simp only [i32_as_u8]
    omega

/-- C9: constructing a `Crossplatform` priority from an 8-bit value succeeds
with exactly that value for inputs in `[0, 100]`, and fails with the range
error naming `[0; 100]` for larger inputs. -/
theorem C9_tryfrom_u8 (p : Nat) (hp : p ≤ 255) :
    (p ≤ 100 → threadPriorityTryFromU8 p = .ok (.Crossplatform ⟨p⟩))
    ∧ (100 < p → threadPriorityTryFromU8 p
        = .error "The thread priority value must be in range of [0; 100].") := by
  constructor
  · intro h
    simp only [threadPriorityTryFromU8]
    rw [if_pos h]
  · intro h
    simp only [threadPriorityTryFromU8]
    rw [if_neg (by omega)]

/-- C9 witness: concrete success at 42 and concrete failure at 101. -/
theorem C9_tryfrom_u8_witness :
    threadPriorityTryFromU8 42 = .ok (.Crossplatform ⟨42⟩)
    ∧ threadPriorityTryFromU8 101
      = .error "The thread priority value must be in range of [0; 100]." :=
  ⟨(C9_tryfrom_u8 42 (by decide)).1 (by decide),
   (C9_tryfrom_u8 101 (by decide)).2 (by decide)⟩

/-- C3: the non-deadline part of the resolution table for
`ThreadPriority::to_posix`: real-time (non-deadline) policies resolve `Min`
to 1, `Max` to 99, and a `Crossplatform`/`Os` value `p` to `p` exactly when
`1 ≤ p ≤ 99` (range error otherwise); normal policies resolve `Min` and `Max`
to 0 and a `Crossplatform`/`Os` value exactly when it is 0. -/
theorem C3_resolution_table :
    (∀ rp : RealtimeThreadSchedulePolicy, rp ≠ .Deadline →
      ThreadPriority.to_posix .Min (.Realtime rp) = .ok 1
      ∧ ThreadPriority.to_posix .Max (.Realtime rp) = .ok 99
      ∧ ∀ p : Nat,
          (ThreadPriority.to_posix (.Crossplatform ⟨p⟩) (.Realtime rp)
              = .ok (p : Int) ↔ 1 ≤ p ∧ p ≤ 99)
          ∧ (ThreadPriority.to_posix (.Os ⟨p⟩) (.Realtime rp)
              = .ok (p : Int) ↔ 1 ≤ p ∧ p ≤ 99)
          ∧ (¬(1 ≤ p ∧ p ≤ 99) →
              ThreadPriority.to_posix (.Crossplatform ⟨p⟩) (.Realtime rp)
                  = .error (.Priority "The value is out of range [0; 99]")
              ∧ ThreadPriority.to_posix (.Os ⟨p⟩) (.Realtime rp)
                  = .error (.Priority "The value is out of range [0; 99]")))
    ∧ (∀ np : NormalThreadSchedulePolicy,
      ThreadPriority.to_posix .Min (.Normal np) = .ok 0
      ∧ ThreadPriority.to_posix .Max (.Normal np) = .ok 0
      ∧ ∀ p : Nat,
          (ThreadPriority.to_posix (.Crossplatform ⟨p⟩) (.Normal np) = .ok 0
            ↔ p = 0)
          ∧ (ThreadPriority.to_posix (.Os ⟨p⟩) (.Normal np) = .ok 0 ↔ p = 0)
          ∧ (p ≠ 0 →
              ThreadPriority.to_posix (.Crossplatform ⟨p⟩) (.Normal np)
                = .error
                  (.Priority "The value can be only 0 for normal scheduling policy")
              ∧ ThreadPriority.to_posix (.Os ⟨p⟩) (.Normal np)
                = .error
                  (.Priority "The value can be only 0 for normal scheduling policy"))) := by
  constructor
  · intro rp h
    refine ⟨?_, ?_, ?_⟩
    · cases rp with
      | Deadline => exact absurd rfl h
      | Fifo => rfl
      | RoundRobin => rfl
    · cases rp with
      | Deadline => exact absurd rfl h
      | Fifo => rfl
      | RoundRobin => rfl
    · intro p
      obtain ⟨hco, hos⟩ := to_posix_value_realtime p rp h
      refine ⟨?_, ?_, ?_⟩
      · rw [hco, hos]
        by_cases hp : 1 ≤ p ∧ p ≤ 99
        · rw [if_pos hp]
          simp [hp]
        · rw [if_neg hp]
          simp [hp]
      · rw [hos]
        by_cases hp : 1 ≤ p ∧ p ≤ 99
        · rw [if_pos hp]
          simp [hp]
        · rw [if_neg hp]
          simp [hp]
      · intro hp
        rw [hco, hos, if_neg hp]
        exact ⟨rfl, rfl⟩
  · intro np
    refine ⟨rfl, rfl, ?_⟩
    intro p
    obtain ⟨hco, hos⟩ := to_posix_value_normal p np
    refine ⟨?_, ?_, ?_⟩
    · rw [hco, hos]
      by_cases hp : p = 0
      · rw [if_pos hp]
        simp [hp]
      · rw [if_neg hp]
        simp [hp]
    · rw [hos]
      by_cases hp : p = 0
      · rw [if_pos hp]
        simp [hp]
      · rw [if_neg hp]
        simp [hp]
    · intro hp
      rw [hco, hos, if_neg hp]
      exact ⟨rfl, rfl⟩

/-- C3 witness: `Crossplatform(50)` resolves to 50 under Fifo, and `Max`
resolves to 0 under the Batch normal policy. -/
theorem C3_resolution_table_witness :
    ThreadPriority.to_posix (.Crossplatform ⟨50⟩) (.Realtime .Fifo) = .ok 50
    ∧ ThreadPriority.to_posix .Max (.Normal .Batch) = .ok 0 := by
  refine ⟨?_, (C3_resolution_table.2 .Batch).2.1⟩
  exact (((C3_resolution_table.1 .Fifo (by decide)).2.2 50).1).mpr (by decide)

/-- C4: every non-`Deadline` priority variant resolved against the deadline
policy is a priority error, and a `Deadline(...)` priority resolved against
any non-deadline policy is a priority error. -/
theorem C4_policy_priority_mismatch :
    (∀ prio : ThreadPriority, prio.isDeadlineVariant = false →
      ThreadPriority.to_posix prio (.Realtime .Deadline)
        = .error (.Priority "Deadline scheduling must use deadline priority."))
    ∧ (∀ (r d p : Nat) (f : Option DeadlineFlags)
        (pol : ThreadSchedulePolicy), pol ≠ .Realtime .Deadline →
      ThreadPriority.to_posix (.Deadline r d p f) pol
        = .error (.Priority "Deadline is non-POSIX and cannot be converted.")) := by
  constructor
  · intro prio h
    cases prio with
    | Min => rfl
    | Crossplatform v => obtain ⟨p⟩ := v; rfl
    | Os v => obtain ⟨p⟩ := v; rfl
    | Max => rfl
    | Deadline r d p f => simp [ThreadPriority.isDeadlineVariant] at h
  · intro r d p f pol hpol
    cases pol with
    | Normal np => rfl
    | Realtime rp => cases rp <;> rfl

/-- C4 witness: `Min` against the deadline policy errors, and a concrete
deadline priority against the normal policy errors. -/
theorem C4_policy_priority_mismatch_witness :
    ThreadPriority.to_posix .Min (.Realtime .Deadline)
      = .error (.Priority "Deadline scheduling must use deadline priority.")
    ∧ ThreadPriority.to_posix (.Deadline 1 2 3 none) (.Normal .Normal)
      = .error (.Priority "Deadline is non-POSIX and cannot be converted.") :=
  ⟨C4_policy_priority_mismatch.1 .Min rfl,
   C4_policy_priority_mismatch.2 1 2 3 none (.Normal .Normal) (by decide)⟩

/-- C5 counterexample: with the flag set present (`Some(ResetOnFork)`, whose
numeric value 1 is nonzero), the attribute record issued to `sched_setattr`
still carries `sched_flags = 0`; the flag value travels as the syscall's
separate third argument instead of in the record, refuting the claim that the
record's flags are taken from the optional flag set. -/
theorem C5_sched_attr_flags_counterexample :
    set_thread_schedule_policy 0 (.Realtime .Deadline) ⟨0⟩
        (.Deadline 1000000 10000000 100000000 (some .ResetOnFork))
      = .ok (.sched_setattr 0
          ⟨56, 6, 0, 0, 0, 1000000, 10000000, 100000000, 0, 0⟩ 1)
    ∧ DeadlineFlags.toInt .ResetOnFork ≠ 0 := by
  exact ⟨rfl, by decide⟩

/-- C5 (amended): on the deadline write path the attribute record passed to
`sched_setattr` has `size` equal to the record's byte size (56),
`sched_policy` = 6, and runtime/deadline/period copied across, but its
`sched_flags` field is always zero; the optional flag set's numeric value
(or zero when absent) is instead passed as the syscall's separate flags
argument. -/
theorem C5_deadline_attr_amended (native r d p : Nat) (params : ScheduleParams)
    (f : Option DeadlineFlags) :
    set_thread_schedule_policy native (.Realtime .Deadline) params
        (.Deadline r d p f)
      = .ok (.sched_setattr (u64_as_pid native)
          { size := schedAttrSizeBytes
            sched_policy := 6
            sched_flags := 0
            sched_nice := 0
            sched_priority := 0
            sched_runtime := r
            sched_deadline := d
            sched_period := p
            sched_util_min := 0
            sched_util_max := 0 }
          (match f with
            | none => 0
            | some fl => fl.toInt))
    ∧ schedAttrSizeBytes = 56 :=
  ⟨rfl, rfl⟩

/-- C6: validation errors are raised before the OS boundary (the embedded
write paths return the domain error in place of a `SysCall` description):
a failing `to_posix` resolution under a non-deadline policy propagates out of
`set_thread_priority_and_policy` unchanged, a failing resolution step (which
for the deadline policy is the constant 0 and never fails) likewise, and the
deadline branch of `set_thread_schedule_policy` rejects every non-`Deadline`
priority variant with the policy-mismatch error before any syscall. -/
theorem C6_validation_before_os_call :
    (∀ (native : Nat) (prio : ThreadPriority) (pol : ThreadSchedulePolicy)
        (e : Error),
      pol ≠ .Realtime .Deadline → prio.to_posix pol = .error e →
      set_thread_priority_and_policy native prio pol = .error e)
    ∧ (∀ (native : Nat) (prio : ThreadPriority) (pol : ThreadSchedulePolicy)
        (e : Error),
      resolve_sched_priority prio pol = .error e →
      set_thread_priority_and_policy native prio pol = .error e)
    ∧ (∀ (native : Nat) (params : ScheduleParams) (prio : ThreadPriority),
      prio.isDeadlineVariant = false →
      set_thread_schedule_policy native (.Realtime .Deadline) params prio
        = .error (.Priority "Deadline policy given without deadline priority.")) := by
  refine ⟨?_, ?_, ?_⟩
  · intro native prio pol e hpol h
    exact set_thread_priority_and_policy_error native prio pol e
      (by rw [resolve_eq_to_posix prio pol hpol]; exact h)
  · intro native prio pol e h
    exact set_thread_priority_and_policy_error native prio pol e h
  · intro native params prio h
    cases prio with
    | Min => rfl
    | Crossplatform v => rfl
    | Os v => rfl
    | Max => rfl
    | Deadline r d p f => simp [ThreadPriority.isDeadlineVariant] at h

/-- C6 witness: a nonzero crossplatform priority under the normal policy is
rejected with no syscall description produced, and the deadline branch
rejects `Min`. -/
theorem C6_validation_before_os_call_witness :
    set_thread_priority_and_policy 7 (.Crossplatform ⟨50⟩) (.Normal .Normal)
      = .error (.Priority "The value can be only 0 for normal scheduling policy")
    ∧ set_thread_schedule_policy 7 (.Realtime .Deadline) ⟨0⟩ .Min
      = .error (.Priority "Deadline policy given without deadline priority.") :=
  ⟨C6_validation_before_os_call.1 7 (.Crossplatform ⟨50⟩) (.Normal .Normal)
      (.Priority "The value can be only 0 for normal scheduling policy")
      (by decide) (by decide),
   C6_validation_before_os_call.2.2 7 ⟨0⟩ .Min rfl⟩

/-- C10: every successful resolution through `ThreadPriority::to_posix`
produces an OS-native priority in `[0, 99]`. -/
theorem C10_ok_range (prio : ThreadPriority) (pol : ThreadSchedulePolicy)
    (v : Int) (h : prio.to_posix pol = .ok v) : 0 ≤ v ∧ v ≤ 99 := by
  have hmap : (prio.to_posix_ret pol).map u32_as_c_int = .ok v := h
  cases hr : prio.to_posix_ret pol with
  | error e =>
    rw [hr] at hmap
    cases hmap
  | ok n =>
    rw [hr] at hmap
    simp only [Except.map, Except.ok.injEq] at hmap
    have hn : n ≤ 99 := to_posix_ret_ok_le prio pol n hr
    rw [← hmap]
    simp only [u32_as_c_int]
    rw [if_pos (by omega)]
    constructor
    · omega
    · omega

/-- C10 witness: `Max` under Fifo resolves to 99, which lies in `[0, 99]`. -/
theorem C10_ok_range_witness :
    ThreadPriority.to_posix .Max (.Realtime .Fifo) = .ok 99
    ∧ (0 ≤ (99 : Int) ∧ (99 : Int) ≤ 99) :=
  ⟨by decide, C10_ok_range .Max (.Realtime .Fifo) 99 (by decide)⟩
